import Mathlib

/-!
Verification of the ts-option library: a two-variant discriminated union
Option with Some and None, combinators over it, an OptionError thrown by
forced extraction, and a conversion from nullable values.

The embedding follows the source files option.ts, guards.ts,
transformations.ts, from.ts, the extraction module and OptionError.
Higher-order combinators that invoke caller-supplied callbacks also get a
monadic reading of the same source line, used to state how many times a
callback is invoked.
-/

/-- The optional string parameter shape of the source. An omitted
argument is the undefined case, modelled as the absent value of the
ambient optional type. This abbreviation is declared before the library
namespace so it refers to the ambient optional type of Lean. -/
abbrev OptionalString := Option String

/-- An omitted message argument: undefined. -/
def undefinedMessage : OptionalString := none

/-- A caller-supplied message argument. -/
def providedMessage (m : String) : OptionalString := some m

namespace TsOption

/-- The discriminated union from option.ts: Some holds one payload value,
None holds nothing. The literal discriminant field kind is given by
Option.kind below. -/
inductive Option (T : Type) where
  | Some (value : T)
  | None
deriving DecidableEq

variable {T U V : Type}

/-- The literal discriminant field kind of the union members. -/
def Option.kind : Option T → String
  | .Some _ => "some"
  | .None => "none"

/-- The module-level singleton NONE from option.ts. -/
def NONE : Option T := .None

/-- Constructor some of option.ts: wraps a value. -/
def some (value : T) : Option T := .Some value

/-- Constructor none of option.ts: a nullary function returning the
shared singleton NONE, modelled as a constant. -/
def none : Option T := NONE

/-- Guard isSome of guards.ts: compares the kind field with "some". -/
def isSome (option : Option T) : Bool := option.kind == "some"

/-- Guard isNone of guards.ts: compares the kind field with "none". -/
def isNone (option : Option T) : Bool := option.kind == "none"

/-- filter from transformations.ts: on Some whose payload passes the
predicate it returns the original container itself, otherwise it returns
none. The Some branch returns the input term, mirroring that the source
returns the original object rather than building a new wrapper. -/
def filter (option : Option T) (predicate : T → Bool) : Option T :=
  match option with
  | .Some value => if predicate value then option else none
  | .None => none

/-- Monadic reading of the same filter source line, used to count
predicate invocations: the None branch returns without running the
predicate action. -/
def filterM {m : Type → Type} [Monad m]
    (option : Option T) (predicate : T → m Bool) : m (Option T) :=
  match option with
  | .Some value => do
      let b ← predicate value
      if b then pure option else pure none
  | .None => pure none

/-- map from transformations.ts. -/
def map (option : Option T) (fn : T → U) : Option U :=
  match option with
  | .Some value => some (fn value)
  | .None => none

/-- flatMap from transformations.ts. -/
def flatMap (option : Option T) (fn : T → Option U) : Option U :=
  match option with
  | .Some value => fn value
  | .None => none

/-- liftA2 from transformations.ts: applies the binary function only
when both options are Some, otherwise none. -/
def liftA2 (fn : T → U → V) (option1 : Option T) (option2 : Option U) :
    Option V :=
  match option1, option2 with
  | .Some v1, .Some v2 => some (fn v1 v2)
  | _, _ => none

/-- Monadic reading of the same liftA2 source line, used to show the
binary function action runs only when both arguments are Some. -/
def liftA2M {m : Type → Type} [Monad m]
    (fn : T → U → m V) (option1 : Option T) (option2 : Option U) :
    m (Option V) :=
  match option1, option2 with
  | .Some v1, .Some v2 => do
      let r ← fn v1 v2
      pure (some r)
  | _, _ => pure none

/-- and from transformations.ts: pairs the payloads when both options
are Some, otherwise none. The source returns the two-element tuple,
modelled as a product. -/
def and (option1 : Option T) (option2 : Option U) : Option (T × U) :=
  match option1, option2 with
  | .Some v1, .Some v2 => some (v1, v2)
  | _, _ => none

/-- or from transformations.ts: the first option when it is Some,
otherwise the second option as-is. -/
def or (option1 option2 : Option T) : Option T :=
  if isSome option1 then option1 else option2

/-- The error class OptionError: a name field fixed to "OptionError" and
a message field. -/
structure OptionError where
  name : String
  message : String
deriving DecidableEq

/-- The OptionError constructor: the message parameter is optional and
defaults to the fixed text when the argument is undefined. -/
def OptionError.make (message : OptionalString) : OptionError :=
  { name := "OptionError",
    message := message.getD "Attempted to unwrap a None value" }

/-- unwrapOr from the extraction module. -/
def unwrapOr (option : Option T) (defaultValue : T) : T :=
  match option with
  | .Some value => value
  | .None => defaultValue

/-- unwrap from the extraction module: returns the payload on Some and
throws an OptionError built from the optional message on None. Throwing
is modelled by the error channel of Except; every other operation of the
surface contains no throw in its source and is embedded as a total
function. -/
def unwrap (option : Option T) (message : OptionalString) :
    Except OptionError T :=
  match option with
  | .Some value => .ok value
  | .None => .error (OptionError.make message)

/-- OrElse from the extraction module: the option itself when Some,
otherwise the result of invoking the alternative callback. -/
def OrElse (option : Option T) (alternative : Unit → Option T) :
    Option T :=
  if isSome option then option else alternative ()

/-- Monadic reading of the same OrElse source line, used to count
alternative invocations: the Some branch returns without running the
alternative action. -/
def OrElseM {m : Type → Type} [Monad m]
    (option : Option T) (alternative : Unit → m (Option T)) :
    m (Option T) :=
  if isSome option then pure option else alternative ()

/-- The nullable input type of fromNullable: a value, or one of the two
absence sentinels null and undefined. -/
inductive Nullable (T : Type) where
  | null
  | undefined
  | val (value : T)
deriving DecidableEq

/-- fromNullable from from.ts: none exactly on the null and undefined
sentinels, some of the value otherwise. -/
def fromNullable (value : Nullable T) : Option T :=
  match value with
  | .null => none
  | .undefined => none
  | .val v => some v

/-- Claim C1: unwrap of some returns the payload for every message
argument; unwrap of none fails with an OptionError carrying the
caller-supplied message when one is provided and the fixed default
message otherwise. Every other operation of the surface is embedded
without an error channel because its source contains no throw. -/
theorem unwrap_spec (T : Type) :
    (∀ (v : T) (message : OptionalString),
      unwrap (some v) message = Except.ok v) ∧
    (∀ m : String, unwrap (none : Option T) (providedMessage m) =
      Except.error { name := "OptionError", message := m }) ∧
    unwrap (none : Option T) undefinedMessage =
      Except.error { name := "OptionError",
                     message := "Attempted to unwrap a None value" } :=
  ⟨fun _ _ => rfl, fun _ => rfl, rfl⟩

/-- Claim C2 counterexample: at the concrete input none with no message,
unwrap fails with the message "Attempted to unwrap a None value", which
is not the text the claim states. -/
theorem unwrap_default_text_cex :
    unwrap (none : Option Nat) undefinedMessage =
      Except.error { name := "OptionError",
                     message := "Attempted to unwrap a None value" } ∧
    "Attempted to unwrap a None value" ≠
      "attempted to extract from an absent value" :=
  ⟨rfl, by decide⟩

/-- Claim C2 amended: when unwrap is called on none without a
caller-supplied message, the OptionError it raises carries the fixed
default text "Attempted to unwrap a None value". -/
theorem unwrap_default_text (T : Type) :
    unwrap (none : Option T) undefinedMessage =
      Except.error { name := "OptionError",
                     message := "Attempted to unwrap a None value" } :=
  rfl

/-- Claim C3: fromNullable returns none exactly on the null and
undefined sentinels, and some of the value on every other input,
including the falsy-but-present values zero, the empty string and the
boolean false. -/
theorem fromNullable_spec (T : Type) :
    (∀ x : Nullable T, fromNullable x = none ↔
      (x = Nullable.null ∨ x = Nullable.undefined)) ∧
    (∀ v : T, fromNullable (Nullable.val v) = some v) ∧
    fromNullable (Nullable.val (0 : Nat)) = some 0 ∧
    fromNullable (Nullable.val false) = some false ∧
    fromNullable (Nullable.val "") = some "" := by
  refine ⟨fun x => ?_, fun v => rfl, rfl, rfl, rfl⟩
  cases x <;> simp [fromNullable, some, none, NONE]

/-- Claim C3 witness: the iff of fromNullable_spec applied at the
concrete sentinel input null. -/
theorem fromNullable_spec_witness :
    fromNullable (Nullable.null : Nullable Nat) = none :=
  ((fromNullable_spec Nat).1 Nullable.null).mpr (Or.inl rfl)

/-- Claim C4: filter returns the original container itself when the
input is Some and the predicate holds of the payload; it returns none
when the predicate fails or the input is none; the predicate is not
invoked on a none input, shown by the monadic reading leaving the
invocation counter untouched for an arbitrary predicate action. -/
theorem filter_spec (T : Type) :
    (∀ (o : Option T) (v : T) (p : T → Bool),
      o = some v → p v = true → filter o p = o) ∧
    (∀ (v : T) (p : T → Bool), p v = false → filter (some v) p = none) ∧
    (∀ p : T → Bool, filter (none : Option T) p = none) ∧
    (∀ pm : T → StateM Nat Bool,
      (filterM (none : Option T) pm).run 0 = (none, 0)) := by
  refine ⟨fun o v p ho hp => ?_, fun v p hp => ?_, fun p => rfl,
    fun pm => rfl⟩
  · subst ho; simp [filter, some, hp]
  · simp [filter, some, hp]

/-- Claim C4 witness: filter_spec applied at the concrete option
some 3 with a passing and a failing predicate. -/
theorem filter_spec_witness :
    filter (some 3) (fun v => decide (0 < v)) = some 3 ∧
    filter (some 3) (fun v => decide (v < 0)) = none :=
  ⟨(filter_spec Nat).1 (some 3) 3 (fun v => decide (0 < v)) rfl
      (by decide),
    (filter_spec Nat).2.1 3 (fun v => decide (v < 0)) (by decide)⟩

/-- Claim C5: OrElse of some returns the original option for every
alternative callback, and the monadic reading shows the alternative
action never runs there; OrElse of none returns the result of the
alternative as-is, and the monadic reading with a counting alternative
shows it runs exactly once. -/
theorem OrElse_spec (T : Type) :
    (∀ (v : T) (alternative : Unit → Option T),
      OrElse (some v) alternative = some v) ∧
    (∀ alternative : Unit → Option T,
      OrElse (none : Option T) alternative = alternative ()) ∧
    (∀ (v : T) (alternative : Unit → StateM Nat (Option T)),
      (OrElseM (some v) alternative).run 0 = (some v, 0)) ∧
    (∀ g : Unit → Option T,
      ((OrElseM (none : Option T)
        (fun u => do modify (fun n => n + 1); pure (g u)) :
          StateM Nat (Option T))).run 0 = (g (), 1)) :=
  ⟨fun _ _ => rfl, fun _ => rfl, fun _ _ => rfl, fun _ => rfl⟩

/-- Claim C6: the functor composition law for map. -/
theorem map_comp (T U V : Type) (o : Option T) (f : T → U) (g : U → V) :
    map (map o f) g = map o fun x => g (f x) := by
  cases o <;> rfl

/-- Claim C7: liftA2 applies the binary function when both arguments are
Some, returns none whenever either argument is none, and the monadic
reading shows the function action does not run when either argument is
none. -/
theorem liftA2_spec (T U V : Type) (fn : T → U → V) :
    (∀ (a : T) (b : U), liftA2 fn (some a) (some b) = some (fn a b)) ∧
    (∀ o2 : Option U, liftA2 fn (none : Option T) o2 = none) ∧
    (∀ o1 : Option T, liftA2 fn o1 (none : Option U) = none) ∧
    (∀ (fm : T → U → StateM Nat V) (o2 : Option U),
      (liftA2M fm (none : Option T) o2).run 0 = (none, 0)) ∧
    (∀ (fm : T → U → StateM Nat V) (o1 : Option T),
      (liftA2M fm o1 (none : Option U)).run 0 = (none, 0)) := by
  refine ⟨fun a b => rfl, fun o2 => ?_, fun o1 => ?_, fun fm o2 => ?_,
    fun fm o1 => ?_⟩
  · cases o2 <;> rfl
  · cases o1 <;> rfl
  · cases o2 <;> rfl
  · cases o1 <;> rfl

/-- Claim C8: or returns the first option when it is Some, for any
second argument, and returns the second option as-is when the first is
none. -/
theorem or_spec (T : Type) :
    (∀ (a : T) (x : Option T), or (some a) x = some a) ∧
    (∀ o2 : Option T, or (none : Option T) o2 = o2) :=
  ⟨fun _ _ => rfl, fun _ => rfl⟩

/-- Claim C9: none is the shared singleton NONE, and an option observed
as none is that very value, so no two results of none are
distinguishable. -/
theorem none_singleton (T : Type) :
    (none : Option T) = NONE ∧
    ∀ o : Option T, isNone o = true ↔ o = NONE := by
  refine ⟨rfl, fun o => ?_⟩
  cases o <;> simp [isNone, Option.kind, NONE]

/-- Claim C9 witness: the iff of none_singleton applied at the concrete
option none. -/
theorem none_singleton_witness : (none : Option Nat) = NONE :=
  ((none_singleton Nat).2 (none : Option Nat)).mp rfl

/-- Claim C10: and is the pairing specialization of liftA2. -/
theorem and_eq_liftA2 (T U : Type) (o1 : Option T) (o2 : Option U) :
    and o1 o2 = liftA2 (fun a b => (a, b)) o1 o2 := by
  cases o1 <;> cases o2 <;> rfl

end TsOption
